import Mathlib

/-!
Verification of the `hng13-stage1-devops` repository (`app.py`), a single-route
Flask application that renders deployment metadata into an HTML template.

The embedding models:
* the date formatting performed by `datetime.now().strftime("%d/%m/%Y")`;
* the module-level constants `DEVOPS_STAGE`, `DEV_NAME`, `DEPLOY_DATE`;
* the route handler `home` and its call to `render_template`;
* Flask's default dispatch behavior (404 for unknown paths, 405 for
  unregistered methods, 500 when the handler raises);
* the `if __name__ == '__main__'` bootstrap running `app.run(host='0.0.0.0',
  port=5000)`.
-/

namespace App

/-- A calendar date as read from the system clock (`datetime.now()`). -/
structure Date where
  day : Nat
  month : Nat
  year : Nat
deriving DecidableEq, Repr

/-- A date produced by the system clock is a valid calendar date
(in particular the year of any real wall clock has four digits). -/
def ValidDate (d : Date) : Prop :=
  1 ≤ d.day ∧ d.day ≤ 31 ∧ 1 ≤ d.month ∧ d.month ≤ 12 ∧
  1000 ≤ d.year ∧ d.year ≤ 9999

instance (d : Date) : Decidable (ValidDate d) := by
  unfold ValidDate; infer_instance

/-- The decimal digit character for `n < 10`. -/
def digitChar (n : Nat) : Char := Char.ofNat (48 + n)

/-- Decimal digits of `n`, most significant first (the `%Y` directive). -/
def natDigits (n : Nat) : List Char :=
  if _ : n < 10 then [digitChar n]
  else natDigits (n / 10) ++ [digitChar (n % 10)]
termination_by n
decreasing_by exact Nat.div_lt_self (by omega) (by omega)

/-- Two-character zero-padded decimal rendering (the `%d` and `%m`
directives, for values below 100). -/
def pad2chars (n : Nat) : List Char :=
  if n < 10 then ['0', digitChar n] else [digitChar (n / 10), digitChar (n % 10)]

/-- Embedding of `strftime("%d/%m/%Y")`: zero-padded day, slash, zero-padded
month, slash, decimal year. -/
def formatDMY (d : Date) : String :=
  ⟨pad2chars d.day ++ '/' :: (pad2chars d.month ++ '/' :: natDigits d.year)⟩

/-- Module constant `DEVOPS_STAGE = "Stage 1"` (app.py line 7). -/
def DEVOPS_STAGE : String := "Stage 1"

/-- Module constant `DEV_NAME = "Ibrahim Nassar"` (app.py line 8). -/
def DEV_NAME : String := "Ibrahim Nassar"

/-- Module constant `DEPLOY_DATE = datetime.now().strftime("%d/%m/%Y")`
(app.py line 9), parameterized by the date the clock returned at process
start. -/
def DEPLOY_DATE (clockNow : Date) : String := formatDMY clockNow

/-- Is `c` an ASCII decimal digit? -/
def isDig (c : Char) : Bool := '0' ≤ c && c ≤ '9'

/-- Does a character list match the shape `DD/MM/YYYY`? -/
def dmyPattern : List Char → Bool
  | [a, b, s₁, c, d, s₂, e, f, g, h] =>
      isDig a && isDig b && (s₁ == '/') && isDig c && isDig d &&
      (s₂ == '/') && isDig e && isDig f && isDig g && isDig h
  | _ => false

/-- Does a string match the pattern `DD/MM/YYYY`? -/
def matchesDMY (s : String) : Bool := dmyPattern s.data

/-- HTTP methods. -/
inductive Method where
  | GET
  | POST
  | PUT
  | DELETE
  | PATCH
deriving DecidableEq, Repr

/-- An incoming HTTP request. The application never reads anything beyond
the method and path used for routing, but headers, query parameters and the
body are part of the request the server hands over. -/
structure Request where
  method : Method
  path : String
  headers : List (String × String)
  query : List (String × String)
  body : String
deriving DecidableEq, Repr

/-- An HTTP response as produced by the external server collaborator. -/
structure Response where
  status : Nat
  contentType : String
  body : String
deriving DecidableEq, Repr

/-- Errors the templating collaborator can raise. -/
inductive RenderError where
  | templateNotFound
  | templateRenderError
deriving DecidableEq, Repr

/-- The external templating capability (`render_template`): a template
identifier and a name→value mapping yield HTML or an error. -/
def Renderer : Type := String → List (String × String) → Except RenderError String

/-- The metadata triple displayed on the page. -/
structure DeploymentInfo where
  stage : String
  dev_name : String
  deploy_date : String
deriving DecidableEq, Repr

/-- A registered route: an HTTP method bound to a path. -/
structure Route where
  method : Method
  path : String
deriving DecidableEq, Repr

/-- The route table the module registers: `@app.route('/')` with the default
method set, i.e. GET on `/` only (app.py line 11). -/
def routes : List Route := [⟨Method.GET, "/"⟩]

/-- The arguments `home` passes to `render_template` (app.py lines 13–18):
the fixed identifier `"index.html"` and the keyword mapping
`stage=DEVOPS_STAGE, dev_name=DEV_NAME, deploy_date=DEPLOY_DATE`.
The request is in scope for a Flask handler but `home` reads none of it. -/
def homeArgs (info : DeploymentInfo) (_ : Request) :
    String × List (String × String) :=
  ("index.html",
   [("stage", info.stage), ("dev_name", info.dev_name),
    ("deploy_date", info.deploy_date)])

/-- The route handler `home` (app.py lines 11–18): call the renderer with
the fixed template identifier and the metadata mapping and return its
result unchanged, catching nothing. -/
def home (info : DeploymentInfo) (renderer : Renderer) (req : Request) :
    Except RenderError String :=
  renderer (homeArgs info req).1 (homeArgs info req).2

/-- Flask's default not-found response for an unmatched path. -/
def default404 : Response := ⟨404, "text/html", "Not Found"⟩

/-- Flask's default method-not-allowed response for a matched path whose
method is not registered. -/
def default405 : Response := ⟨405, "text/html", "Method Not Allowed"⟩

/-- Flask's default internal-server-error response, produced when an
uncaught exception propagates out of a handler. -/
def default500 : Response := ⟨500, "text/html", "Internal Server Error"⟩

/-- The external server's dispatch over a route table: an unmatched path
gets the default 404, a matched path with an unregistered method gets the
default 405, a handler exception surfaces as the default 500, and a string
returned by the handler becomes a 200 text/html response. -/
def dispatch (rs : List Route) (handler : Request → Except RenderError String)
    (req : Request) : Response :=
  if rs.any fun r => r.path == req.path then
    if rs.any fun r => r.path == req.path && r.method == req.method then
      match handler req with
      | Except.ok html => ⟨200, "text/html", html⟩
      | Except.error _ => default500
    else default405
  else default404

/-- The context a process run starts from: the date the system clock reads
at start, the process environment, and whether the module is executed as
the main program (as opposed to being imported). -/
structure ProcessContext where
  startDate : Date
  env : List (String × String)
  isMain : Bool
deriving DecidableEq, Repr

/-- Module-level initialization (app.py lines 7–9): compute the three
metadata constants. Only the clock is consulted. -/
def moduleInit (ctx : ProcessContext) : DeploymentInfo :=
  ⟨DEVOPS_STAGE, DEV_NAME, DEPLOY_DATE ctx.startDate⟩

/-- What executing the module produces: the computed metadata, the
registered route table, and the host/port the server was started on
(`none` when the server was not started). -/
structure ModuleResult where
  info : DeploymentInfo
  registeredRoutes : List Route
  serverStarted : Option (String × Nat)
deriving DecidableEq, Repr

/-- Executing `app.py`: constants and route registration always happen;
`app.run(host='0.0.0.0', port=5000)` runs only under the
`if __name__ == '__main__'` guard (app.py lines 20–21). -/
def runModule (ctx : ProcessContext) : ModuleResult :=
  { info := moduleInit ctx
    registeredRoutes := routes
    serverStarted := if ctx.isMain then some ("0.0.0.0", 5000) else none }

/-- Serving one request in a process started from `ctx`: the external
server dispatches over the registered routes to the `home` handler closed
over the once-computed metadata. -/
def serve (ctx : ProcessContext) (renderer : Renderer) (req : Request) :
    Response :=
  dispatch (runModule ctx).registeredRoutes
    (home (runModule ctx).info renderer) req

/-- `t` occurs as a contiguous substring of `s`. -/
def containsSub (s t : String) : Prop := List.IsInfix t.data s.data

instance (s t : String) : Decidable (containsSub s t) := by
  unfold containsSub; infer_instance

/-- Fixed HTML surrounding the `stage` placeholder in the template. -/
def tmplPre : String := "<html><body><h1>"

/-- Fixed HTML between the `stage` and `dev_name` placeholders. -/
def tmplMid₁ : String := "</h1><p>"

/-- Fixed HTML between the `dev_name` and `deploy_date` placeholders. -/
def tmplMid₂ : String := "</p><p>"

/-- Fixed HTML after the `deploy_date` placeholder. -/
def tmplSuf : String := "</p></body></html>"

/-- Modelled from the spec: the template `templates/index.html` referenced
by `render_template("index.html", ...)` is not under `src/`. Per the spec
the renderer substitutes the mapping's `stage`, `dev_name` and
`deploy_date` values into named placeholders of an HTML document, and
fails with `TemplateRenderError` if a referenced placeholder is undefined
in the mapping. -/
def renderIndex (vars : List (String × String)) :
    Except RenderError String :=
  match vars.lookup "stage", vars.lookup "dev_name",
        vars.lookup "deploy_date" with
  | some s, some d, some dd =>
      Except.ok (tmplPre ++ s ++ tmplMid₁ ++ d ++ tmplMid₂ ++ dd ++ tmplSuf)
  | _, _, _ => Except.error RenderError.templateRenderError

/-- Modelled from the spec: the templating collaborator resolves the
identifier `"index.html"` to the index template and fails with
`TemplateNotFound` for any unknown identifier. -/
def specRenderer : Renderer := fun name vars =>
  if name = "index.html" then renderIndex vars
  else Except.error RenderError.templateNotFound

theorem isDig_digitChar {k : Nat} (h : k < 10) : isDig (digitChar k) = true := by
  interval_cases k <;> decide

theorem natDigits_lt {n : Nat} (h : n < 10) : natDigits n = [digitChar n] := by
  unfold natDigits; simp [h]

theorem natDigits_ge {n : Nat} (h : ¬ n < 10) :
    natDigits n = natDigits (n / 10) ++ [digitChar (n % 10)] := by
  conv_lhs => unfold natDigits
  simp [h]

theorem pad2chars_shape {n : Nat} (h : n < 100) :
    ∃ a b, pad2chars n = [a, b] ∧ isDig a = true ∧ isDig b = true := by
  unfold pad2chars
  by_cases h₁₀ : n < 10
  · exact ⟨'0', digitChar n, by simp [h₁₀], by decide, isDig_digitChar h₁₀⟩
  · exact ⟨digitChar (n / 10), digitChar (n % 10), by simp [h₁₀],
      isDig_digitChar (by omega), isDig_digitChar (by omega)⟩

theorem natDigits_shape₁ {n : Nat} (h : n ≤ 9) :
    ∃ a, natDigits n = [a] ∧ isDig a = true :=
  ⟨digitChar n, natDigits_lt (by omega), isDig_digitChar (by omega)⟩

theorem natDigits_shape₂ {n : Nat} (h₀ : 10 ≤ n) (h₁ : n ≤ 99) :
    ∃ a b, natDigits n = [a, b] ∧ isDig a = true ∧ isDig b = true := by
  obtain ⟨a, ha, hda⟩ := natDigits_shape₁ (show n / 10 ≤ 9 by omega)
  exact ⟨a, digitChar (n % 10),
    by rw [natDigits_ge (by omega), ha]; rfl, hda, isDig_digitChar (by omega)⟩

theorem natDigits_shape₃ {n : Nat} (h₀ : 100 ≤ n) (h₁ : n ≤ 999) :
    ∃ a b c, natDigits n = [a, b, c] ∧
      isDig a = true ∧ isDig b = true ∧ isDig c = true := by
  obtain ⟨a, b, hab, hda, hdb⟩ :=
    natDigits_shape₂ (show 10 ≤ n / 10 by omega) (show n / 10 ≤ 99 by omega)
  exact ⟨a, b, digitChar (n % 10),
    by rw [natDigits_ge (by omega), hab]; rfl, hda, hdb, isDig_digitChar (by omega)⟩

theorem natDigits_shape₄ {n : Nat} (h₀ : 1000 ≤ n) (h₁ : n ≤ 9999) :
    ∃ a b c d, natDigits n = [a, b, c, d] ∧ isDig a = true ∧
      isDig b = true ∧ isDig c = true ∧ isDig d = true := by
  obtain ⟨a, b, c, habc, hda, hdb, hdc⟩ :=
    natDigits_shape₃ (show 100 ≤ n / 10 by omega) (show n / 10 ≤ 999 by omega)
  exact ⟨a, b, c, digitChar (n % 10),
    by rw [natDigits_ge (by omega), habc]; rfl, hda, hdb, hdc,
    isDig_digitChar (by omega)⟩

theorem matchesDMY_formatDMY {d : Date} (h : ValidDate d) :
    matchesDMY (formatDMY d) = true := by
  obtain ⟨hd₁, hd₂, hm₁, hm₂, hy₁, hy₂⟩ := h
  obtain ⟨a, b, hab, hda, hdb⟩ := pad2chars_shape (show d.day < 100 by omega)
  obtain ⟨c, e, hce, hdc, hde⟩ := pad2chars_shape (show d.month < 100 by omega)
  obtain ⟨f, g, i, j, hfg, hdf, hdg, hdi, hdj⟩ := natDigits_shape₄ hy₁ hy₂
  unfold matchesDMY formatDMY
  rw [show (⟨pad2chars d.day ++ '/' :: (pad2chars d.month ++ '/' ::
      natDigits d.year)⟩ : String).data = pad2chars d.day ++ '/' ::
      (pad2chars d.month ++ '/' :: natDigits d.year) from rfl,
    hab, hce, hfg]
  simp [dmyPattern, hda, hdb, hdc, hde, hdf, hdg, hdi, hdj]

theorem containsSub_of_data {s t : String} (u v : List Char)
    (h : s.data = u ++ t.data ++ v) : containsSub s t :=
  ⟨u, v, h.symm⟩

/-- Claim C1: every GET request to `/` is answered with status 200,
content-type text/html, and body the HTML the renderer produced for the
fixed template identifier and the current DeploymentInfo mapping. -/
theorem c1_get_root_renders (ctx : ProcessContext) (renderer : Renderer)
    (req : Request) (html : String)
    (hm : req.method = Method.GET) (hp : req.path = "/")
    (hr : renderer "index.html"
      [("stage", (runModule ctx).info.stage),
       ("dev_name", (runModule ctx).info.dev_name),
       ("deploy_date", (runModule ctx).info.deploy_date)] = Except.ok html) :
    serve ctx renderer req = ⟨200, "text/html", html⟩ := by
  simp [serve, dispatch, routes, home, homeArgs, runModule, hp, hm] at hr ⊢
  simp [hr]

theorem c1_witness :
    serve ⟨⟨5, 4, 2024⟩, [], true⟩ (fun _ _ => Except.ok "page")
      ⟨Method.GET, "/", [], [], ""⟩ = ⟨200, "text/html", "page"⟩ :=
  c1_get_root_renders ⟨⟨5, 4, 2024⟩, [], true⟩ (fun _ _ => Except.ok "page")
    ⟨Method.GET, "/", [], [], ""⟩ "page" rfl rfl rfl

/-- Claim C2: at process start the metadata is stage `"Stage 1"`, developer
name `"Ibrahim Nassar"`, and the clock date formatted `DD/MM/YYYY`; the
value depends on nothing but the single clock reading, and for a valid
clock date the formatted date matches the `DD/MM/YYYY` pattern. -/
theorem c2_metadata (ctx : ProcessContext) (h : ValidDate ctx.startDate) :
    (runModule ctx).info =
      ⟨"Stage 1", "Ibrahim Nassar", formatDMY ctx.startDate⟩ ∧
    matchesDMY (runModule ctx).info.deploy_date = true :=
  ⟨rfl, matchesDMY_formatDMY h⟩

theorem c2_witness :
    (runModule ⟨⟨5, 4, 2024⟩, [], true⟩).info =
      ⟨"Stage 1", "Ibrahim Nassar", formatDMY ⟨5, 4, 2024⟩⟩ ∧
    matchesDMY (runModule ⟨⟨5, 4, 2024⟩, [], true⟩).info.deploy_date = true :=
  c2_metadata ⟨⟨5, 4, 2024⟩, [], true⟩ (by decide)

/-- Claim C3: within one process run the DeploymentInfo is computed once;
any two requests are served with identical renderer arguments, and the
`deploy_date` value handed to the renderer is always the process-start
date, never recomputed per request. -/
theorem c3_info_constant (ctx : ProcessContext) (renderer : Renderer)
    (req₁ req₂ : Request) :
    homeArgs (runModule ctx).info req₁ = homeArgs (runModule ctx).info req₂ ∧
    home (runModule ctx).info renderer req₁ =
      home (runModule ctx).info renderer req₂ ∧
    (homeArgs (runModule ctx).info req₁).2.lookup "deploy_date" =
      some (DEPLOY_DATE ctx.startDate) :=
  ⟨rfl, rfl, rfl⟩

/-- Claim C4: when the renderer fails with either error, the handler
catches nothing and the response is the external server's default 500
error page. -/
theorem c4_render_failure_500 (ctx : ProcessContext) (renderer : Renderer)
    (req : Request) (e : RenderError)
    (hm : req.method = Method.GET) (hp : req.path = "/")
    (hr : renderer "index.html"
      [("stage", (runModule ctx).info.stage),
       ("dev_name", (runModule ctx).info.dev_name),
       ("deploy_date", (runModule ctx).info.deploy_date)] =
      Except.error e) :
    serve ctx renderer req = default500 := by
  simp [serve, dispatch, routes, home, homeArgs, runModule, hp, hm] at hr ⊢
  simp [hr]

theorem c4_witness :
    serve ⟨⟨5, 4, 2024⟩, [], true⟩
      (fun _ _ => Except.error RenderError.templateNotFound)
      ⟨Method.GET, "/", [], [], ""⟩ = default500 :=
  c4_render_failure_500 ⟨⟨5, 4, 2024⟩, [], true⟩
    (fun _ _ => Except.error RenderError.templateNotFound)
    ⟨Method.GET, "/", [], [], ""⟩ RenderError.templateNotFound rfl rfl rfl

/-- Claim C5: the application registers only GET on `/`; every request to
another path gets the server's default 404 and every non-GET request to
`/` gets the server's default 405. -/
theorem c5_only_get_root (ctx : ProcessContext) (renderer : Renderer)
    (req₁ req₂ : Request)
    (h₁ : req₁.path ≠ "/")
    (h₂p : req₂.path = "/") (h₂m : req₂.method ≠ Method.GET) :
    routes = [⟨Method.GET, "/"⟩] ∧
    serve ctx renderer req₁ = default404 ∧
    serve ctx renderer req₂ = default405 := by
  refine ⟨rfl, ?_, ?_⟩
  · simp [serve, dispatch, routes, runModule, h₁]
    intro hc
    exact absurd hc.symm h₁
  · simp [serve, dispatch, routes, runModule, h₂p]
    intro hc
    exact absurd hc.symm h₂m

theorem c5_witness :
    routes = [⟨Method.GET, "/"⟩] ∧
    serve ⟨⟨5, 4, 2024⟩, [], true⟩ (fun _ _ => Except.ok "page")
      ⟨Method.GET, "/about", [], [], ""⟩ = default404 ∧
    serve ⟨⟨5, 4, 2024⟩, [], true⟩ (fun _ _ => Except.ok "page")
      ⟨Method.POST, "/", [], [], ""⟩ = default405 :=
  c5_only_get_root ⟨⟨5, 4, 2024⟩, [], true⟩ (fun _ _ => Except.ok "page")
    ⟨Method.GET, "/about", [], [], ""⟩ ⟨Method.POST, "/", [], [], ""⟩
    (by decide) rfl (by decide)

/-- Claim C6: the handler invokes the templating collaborator with exactly
the fixed identifier `"index.html"` and a mapping whose keys are exactly
`stage`, `dev_name`, `deploy_date`, bound to the corresponding
DeploymentInfo fields. -/
theorem c6_renderer_invocation (info : DeploymentInfo) (renderer : Renderer)
    (req : Request) :
    home info renderer req =
      renderer "index.html"
        [("stage", info.stage), ("dev_name", info.dev_name),
         ("deploy_date", info.deploy_date)] ∧
    (homeArgs info req).1 = "index.html" ∧
    (homeArgs info req).2.map Prod.fst = ["stage", "dev_name", "deploy_date"] :=
  ⟨rfl, rfl, rfl⟩

/-- Claim C7: when run as the main program the server is started on host
`0.0.0.0`, port 5000; these are fixed constants, identical no matter what
the environment (or clock) holds. -/
theorem c7_fixed_bind (ctx₁ ctx₂ : ProcessContext)
    (h₁ : ctx₁.isMain = true) (h₂ : ctx₂.isMain = true) :
    (runModule ctx₁).serverStarted = some ("0.0.0.0", 5000) ∧
    (runModule ctx₁).serverStarted = (runModule ctx₂).serverStarted := by
  simp [runModule, h₁, h₂]

theorem c7_witness :
    (runModule ⟨⟨5, 4, 2024⟩, [], true⟩).serverStarted =
      some ("0.0.0.0", 5000) ∧
    (runModule ⟨⟨5, 4, 2024⟩, [], true⟩).serverStarted =
      (runModule ⟨⟨6, 5, 2025⟩, [("PORT", "8080")], true⟩).serverStarted :=
  c7_fixed_bind ⟨⟨5, 4, 2024⟩, [], true⟩
    ⟨⟨6, 5, 2025⟩, [("PORT", "8080")], true⟩ rfl rfl

/-- Claim C8: with the spec-modelled template, every successful response to
GET `/` has status 200 and a body containing the literal substrings
`"Stage 1"` and `"Ibrahim Nassar"` and the deploy date, which matches the
`DD/MM/YYYY` pattern. -/
theorem c8_body_contents (ctx : ProcessContext) (req : Request)
    (hv : ValidDate ctx.startDate)
    (hm : req.method = Method.GET) (hp : req.path = "/") :
    (serve ctx specRenderer req).status = 200 ∧
    containsSub (serve ctx specRenderer req).body "Stage 1" ∧
    containsSub (serve ctx specRenderer req).body "Ibrahim Nassar" ∧
    containsSub (serve ctx specRenderer req).body (DEPLOY_DATE ctx.startDate) ∧
    matchesDMY (DEPLOY_DATE ctx.startDate) = true := by
  have hbody : serve ctx specRenderer req =
      ⟨200, "text/html",
       tmplPre ++ "Stage 1" ++ tmplMid₁ ++ "Ibrahim Nassar" ++ tmplMid₂ ++
         DEPLOY_DATE ctx.startDate ++ tmplSuf⟩ := by
    simp [serve, dispatch, routes, home, homeArgs, runModule, moduleInit,
      DEVOPS_STAGE, DEV_NAME, hp, hm, specRenderer, renderIndex, List.lookup]
  rw [hbody]
  refine ⟨rfl, ?_, ?_, ?_, matchesDMY_formatDMY hv⟩
  · exact containsSub_of_data tmplPre.data
      (tmplMid₁.data ++ "Ibrahim Nassar".data ++ tmplMid₂.data ++
        (DEPLOY_DATE ctx.startDate).data ++ tmplSuf.data)
      (by simp [String.data_append])
  · exact containsSub_of_data (tmplPre.data ++ "Stage 1".data ++ tmplMid₁.data)
      (tmplMid₂.data ++ (DEPLOY_DATE ctx.startDate).data ++ tmplSuf.data)
      (by simp [String.data_append])
  · exact containsSub_of_data
      (tmplPre.data ++ "Stage 1".data ++ tmplMid₁.data ++
        "Ibrahim Nassar".data ++ tmplMid₂.data)
      tmplSuf.data (by simp [String.data_append])

theorem c8_witness :
    (serve ⟨⟨5, 4, 2024⟩, [], true⟩ specRenderer
      ⟨Method.GET, "/", [], [], ""⟩).status = 200 ∧
    containsSub (serve ⟨⟨5, 4, 2024⟩, [], true⟩ specRenderer
      ⟨Method.GET, "/", [], [], ""⟩).body "Stage 1" ∧
    containsSub (serve ⟨⟨5, 4, 2024⟩, [], true⟩ specRenderer
      ⟨Method.GET, "/", [], [], ""⟩).body "Ibrahim Nassar" ∧
    containsSub (serve ⟨⟨5, 4, 2024⟩, [], true⟩ specRenderer
      ⟨Method.GET, "/", [], [], ""⟩).body (DEPLOY_DATE ⟨5, 4, 2024⟩) ∧
    matchesDMY (DEPLOY_DATE ⟨5, 4, 2024⟩) = true :=
  c8_body_contents ⟨⟨5, 4, 2024⟩, [], true⟩ ⟨Method.GET, "/", [], [], ""⟩
    (by decide) rfl rfl

/-- Claim C9: the handler reads nothing request-specific; two GET `/`
requests with arbitrary, possibly different headers, query strings and
bodies produce identical renderer arguments and identical responses. -/
theorem c9_request_independence (ctx : ProcessContext) (renderer : Renderer)
    (req₁ req₂ : Request)
    (h₁m : req₁.method = Method.GET) (h₁p : req₁.path = "/")
    (h₂m : req₂.method = Method.GET) (h₂p : req₂.path = "/") :
    homeArgs (runModule ctx).info req₁ = homeArgs (runModule ctx).info req₂ ∧
    serve ctx renderer req₁ = serve ctx renderer req₂ := by
  refine ⟨rfl, ?_⟩
  simp [serve, dispatch, routes, home, homeArgs, runModule,
    h₁m, h₁p, h₂m, h₂p]

theorem c9_witness :
    homeArgs (runModule ⟨⟨5, 4, 2024⟩, [], true⟩).info
      ⟨Method.GET, "/", [("X-A", "1")], [("q", "a")], "alpha"⟩ =
    homeArgs (runModule ⟨⟨5, 4, 2024⟩, [], true⟩).info
      ⟨Method.GET, "/", [("X-B", "2")], [("q", "b")], "beta"⟩ ∧
    serve ⟨⟨5, 4, 2024⟩, [], true⟩ (fun _ _ => Except.ok "page")
      ⟨Method.GET, "/", [("X-A", "1")], [("q", "a")], "alpha"⟩ =
    serve ⟨⟨5, 4, 2024⟩, [], true⟩ (fun _ _ => Except.ok "page")
      ⟨Method.GET, "/", [("X-B", "2")], [("q", "b")], "beta"⟩ :=
  c9_request_independence ⟨⟨5, 4, 2024⟩, [], true⟩ (fun _ _ => Except.ok "page")
    ⟨Method.GET, "/", [("X-A", "1")], [("q", "a")], "alpha"⟩
    ⟨Method.GET, "/", [("X-B", "2")], [("q", "b")], "beta"⟩ rfl rfl rfl rfl

/-- Claim C10: importing the module does not start the server, while the
metadata constants and the route registration still happen exactly as they
do when the module runs as the main program. -/
theorem c10_import_no_server (ctx : ProcessContext)
    (h : ctx.isMain = false) :
    (runModule ctx).serverStarted = none ∧
    (runModule ctx).info = (runModule { ctx with isMain := true }).info ∧
    (runModule ctx).registeredRoutes = routes := by
  refine ⟨?_, rfl, rfl⟩
  simp [runModule, h]

theorem c10_witness :
    (runModule ⟨⟨5, 4, 2024⟩, [], false⟩).serverStarted = none ∧
    (runModule ⟨⟨5, 4, 2024⟩, [], false⟩).info =
      (runModule { (⟨⟨5, 4, 2024⟩, [], false⟩ : ProcessContext) with
        isMain := true }).info ∧
    (runModule ⟨⟨5, 4, 2024⟩, [], false⟩).registeredRoutes = routes :=
  c10_import_no_server ⟨⟨5, 4, 2024⟩, [], false⟩ rfl

end App
